import Mathlib

/-!
Shallow embedding of the Ward browser extension's background orchestration
core (src/extension/background.js): per-tab analysis tracking with
cancellation and a 60-second watchdog, result caching keyed by
(tab, url, content prefix, mode), mode switching, ignore rules, and the
settlement logic that reconciles asynchronous results against tab
navigation.

JavaScript `Map`s (DETECTION_CACHE, ACTIVE_ANALYSES) are modelled as
association lists with JS `Map` semantics (`set` replaces in place,
`delete` removes, `get` finds the first binding).  Tracker objects are
mutated in place through closures in the source, so they live in an
explicit heap keyed by an allocation counter, and the registry maps a
tabId to the heap key of its current tracker.  Asynchronous closures
(the `.then` / `.catch` handlers and the watchdog callback) become
explicit state-transition functions taking the data the closure captured
(a `Pending` record).  `sendResponse`, `updateBadge` and
`chrome.storage.local` writes are modelled as logs / maps inside the
state, and `chrome.tabs` as a map from tabId to current URL.
-/

namespace Ward

/-! ### Association-list maps with JavaScript `Map` semantics -/

variable {κ : Type} {β : Type} [DecidableEq κ]

/-- `Map.get(k)`: first binding for `k`, if any. -/
def mget : List (κ × β) → κ → Option β
  | [], _ => none
  | (k', v) :: rest, k => if k' = k then some v else mget rest k

/-- `Map.set(k, v)`: replace the binding in place if present, else append. -/
def mset : List (κ × β) → κ → β → List (κ × β)
  | [], k, v => [(k, v)]
  | (k', v') :: rest, k, v =>
      if k' = k then (k, v) :: rest else (k', v') :: mset rest k v

/-- `Map.delete(k)`: remove every binding for `k`. -/
def mdel (m : List (κ × β)) (k : κ) : List (κ × β) :=
  m.filter (fun p => p.1 ≠ k)

/-- Keys of a map, in order. -/
def mkeys (m : List (κ × β)) : List κ := m.map Prod.fst

/-! ### String helpers mirroring JavaScript string operations -/

/-- `needle` occurs at the start of `haystack` (JS `String.startsWith`). -/
def listStartsWith {α : Type} [DecidableEq α] : List α → List α → Bool
  | [], _ => true
  | _ :: _, [] => false
  | a :: as, b :: bs => if a = b then listStartsWith as bs else false

/-- `needle` occurs somewhere in `haystack` (JS `String.includes`). -/
def listContainsSeq {α : Type} [DecidableEq α] (needle : List α) :
    List α → Bool
  | [] => needle.isEmpty
  | b :: bs => listStartsWith needle (b :: bs) || listContainsSeq needle bs

/-- JS `haystack.startsWith(needle)`. -/
def strStartsWith (haystack needle : String) : Bool :=
  listStartsWith needle.data haystack.data

/-- JS `haystack.includes(needle)`. -/
def strContains (haystack needle : String) : Bool :=
  listContainsSeq needle.data haystack.data

/-! ### Data model -/

/-- The result record every path of the background service produces.
JS objects on some paths omit `error`; that field is an `Option`. -/
structure AnalysisResult where
  isMalicious : Bool
  analysis : String
  judgment : String
  method : String
  mode : String
  contentLength : Nat
  error : Option String := none
deriving DecidableEq, Repr

/-- One entry of the persisted `ignoreRules` list. -/
structure IgnoreRule where
  type : String
  pattern : String
deriving DecidableEq, Repr

/-- The tracker object created per fresh analysis (`analysisTracker` in the
source): a `cancelled` flag, the watchdog timer (modelled by whether it is
still armed), and the start time. -/
structure Tracker where
  cancelled : Bool
  timeoutArmed : Bool
  startTime : Nat
deriving DecidableEq, Repr

/-- A stored `detection_<tabId>` record in `chrome.storage.local`.  The
system-page branch of the `onUpdated` listener stores a record without a
`url` field, hence the `Option`. -/
structure Detection where
  result : AnalysisResult
  url : Option String
  timestamp : Nat
deriving DecidableEq, Repr

/-- One call to `updateBadge`. The cache-hit and fresh-success paths pass
the result; the ignored path passes only `(tabId, false)`. -/
structure BadgeCall where
  tabId : Nat
  isMalicious : Bool
  result : Option AnalysisResult
deriving DecidableEq, Repr

/-- Whole background-service state plus logs of its outbound effects. -/
structure BgState where
  activeMode : String
  isAiAvailable : Bool
  aiAvailabilityStatus : String
  /-- `DETECTION_CACHE`. -/
  cache : List (String × AnalysisResult)
  /-- `ACTIVE_ANALYSES`: tabId to heap key of its current tracker. -/
  registry : List (Nat × Nat)
  /-- Tracker objects, keyed by allocation id (closures capture the id). -/
  heap : List (Nat × Tracker)
  nextTrackerId : Nat
  /-- `chrome.storage.local` `detection_<tabId>` entries. -/
  storage : List (Nat × Detection)
  /-- Log of `sendResponse` calls, tagged with the request they answer. -/
  responses : List (Nat × AnalysisResult)
  /-- Log of `updateBadge` calls. -/
  badges : List BadgeCall
  /-- `chrome.tabs`: current URL per live tab. -/
  tabs : List (Nat × String)
deriving DecidableEq, Repr

/-- The data captured by the `.then` / `.catch` / watchdog closures of one
fresh analysis: the request being answered, the tab, the heap key of the
tracker object, the request URL and content, and the cache key computed at
request time. -/
structure Pending where
  reqId : Nat
  tabId : Nat
  tid : Nat
  url : String
  content : String
  cacheKey : String
deriving DecidableEq, Repr

/-! ### Result constructors (the literal objects in the source) -/

/-- Result when AI is unavailable (background.js lines 90-97). -/
def unavailableResult (activeMode : String) (contentLength : Nat) :
    AnalysisResult :=
  { isMalicious := false
    analysis := "AI detection unavailable. Please check settings."
    judgment := "ERROR"
    method := "error"
    mode := activeMode
    contentLength := contentLength }

/-- Result when cloud mode is unconfigured (lines 101-108). -/
def configRequiredResult (contentLength : Nat) : AnalysisResult :=
  { isMalicious := false
    analysis := "Cloud Mode requires configuration. Please set API URL in extension settings."
    judgment := "CONFIGURATION_ERROR"
    method := "error"
    mode := "cloud"
    contentLength := contentLength }

/-- Result built in `analyzeContent`'s catch block (lines 126-133). -/
def analyzeCatchResult (msg activeMode : String) (contentLength : Nat) :
    AnalysisResult :=
  { isMalicious := false
    analysis := "Analysis error: " ++ msg
    judgment := "ERROR"
    method := "error"
    mode := activeMode
    contentLength := contentLength }

/-- The synthetic result emitted by the 60-second watchdog (lines 292-300). -/
def timeoutResult (activeMode : String) (contentLength : Nat) :
    AnalysisResult :=
  { isMalicious := false
    analysis := "Unable to scan. Proceed with caution."
    judgment := "Unable to scan. Proceed with caution."
    method := "timeout"
    mode := activeMode
    contentLength := contentLength
    error := some "Analysis timeout" }

/-- Result emitted by the `.catch` handler of the fresh-analysis promise
(lines 360-372). -/
def rejectionResult (msg activeMode : String) (contentLength : Nat) :
    AnalysisResult :=
  { isMalicious := false
    analysis := if strContains msg "timeout" then
        "Unable to scan. Proceed with caution."
      else "Analysis failed, defaulting to safe"
    judgment := if strContains msg "timeout" then
        "Unable to scan. Proceed with caution."
      else "ERROR"
    method := if strContains msg "timeout" then "timeout" else "error"
    mode := activeMode
    contentLength := contentLength
    error := some msg }

/-- Result for a request the content script marked skipped (lines 191-198). -/
def skipResult (activeMode : String) : AnalysisResult :=
  { isMalicious := false
    analysis := "Page scanning skipped (email platform interface)"
    judgment := "SKIPPED"
    method := "skipped"
    mode := activeMode
    contentLength := 0 }

/-- Result for an ignored URL (lines 221-228). -/
def ignoreResult (activeMode : String) (contentLength : Nat) :
    AnalysisResult :=
  { isMalicious := false
    analysis := "This page is ignored and will not be scanned."
    judgment := "IGNORED"
    method := "ignored"
    mode := activeMode
    contentLength := contentLength }

/-- Result stored by the `onUpdated` listener for system/blank pages
(lines 654-662).  The JS object has no mode/contentLength/error fields;
they are modelled by defaults. -/
def systemSkippedResult : AnalysisResult :=
  { isMalicious := false
    analysis := "System pages and extension pages are not scanned."
    judgment := "SKIPPED"
    method := "skipped"
    mode := ""
    contentLength := 0 }

/-! ### Cache key (background.js lines 24-27) -/

/-- `getCacheKey(url, content, tabId)`; `activeMode` is the module-level
mode variable read at call time. -/
def getCacheKey (url content : String) (tabId : Nat) (activeMode : String) :
    String :=
  let contentHash := String.mk (content.data.take 500)
  "tab" ++ toString tabId ++ ":" ++ url ++ ":" ++ contentHash ++ ":" ++ activeMode

/-! ### Ignore rule matcher (background.js lines 138-166) -/

/-- The hardcoded check for the extension's own pages (line 141). -/
def isWardInternalPage (url : String) : Bool :=
  strContains url "chrome-extension://" &&
    (strContains url "/settings.html" || strContains url "/popup.html")

/-- The rule loop (lines 148-160).  `getHostname` abstracts the WHATWG
URL parser: `new URL(url).hostname`, with `none` when the constructor
throws.  A throw propagates out of the loop (`Except.error`), to be
caught by the surrounding try/catch. -/
def checkRules (getHostname : String → Option String) (url : String) :
    List IgnoreRule → Except Unit Bool
  | [] => Except.ok false
  | rule :: rest =>
      if rule.type = "url" && url = rule.pattern then Except.ok true
      else if rule.type = "domain" then
        match getHostname url with
        | none => Except.error ()
        | some host =>
            if host = rule.pattern then Except.ok true
            else checkRules getHostname url rest
      else checkRules getHostname url rest

/-- `shouldIgnoreUrl(url)`: the whole function body sits in a try/catch
whose catch returns `false`. -/
def shouldIgnoreUrl (getHostname : String → Option String)
    (ignoreRules : List IgnoreRule) (url : String) : Bool :=
  if isWardInternalPage url then true
  else
    match checkRules getHostname url ignoreRules with
    | Except.ok b => b
    | Except.error _ => false

/-! ### Analyze dispatch (background.js lines 87-135)

`analyzeContent` routes to one backend according to the mode globals.
The backends are external collaborators; their outcomes are passed in as
`Except` values (`error` = the promise rejected).  The two booleans
returned record whether the local resp. cloud backend was invoked. -/

def analyzeContent (isAiAvailable : Bool) (aiAvailabilityStatus : String)
    (activeMode : String) (content : String)
    (localOutcome cloudOutcome : Except String AnalysisResult) :
    AnalysisResult × Bool × Bool :=
  if isAiAvailable = false ∧ aiAvailabilityStatus ≠ "configure-required" then
    (unavailableResult activeMode content.length, false, false)
  else if activeMode = "cloud" ∧ aiAvailabilityStatus = "configure-required" then
    (configRequiredResult content.length, false, false)
  else if activeMode = "cloud" then
    match cloudOutcome with
    | Except.ok r => (r, false, true)
    | Except.error msg =>
        (analyzeCatchResult msg activeMode content.length, false, true)
  else
    match localOutcome with
    | Except.ok r => (r, true, false)
    | Except.error msg =>
        (analyzeCatchResult msg activeMode content.length, true, false)

/-! ### The analyzeContent message handler (background.js lines 184-377)

The synchronous portion of the handler, up to the point where the fresh
analysis is dispatched.  The asynchronous continuations (`.then`,
`.catch`, the watchdog) are separate transition functions below, taking
the `Pending` data their closures captured. -/

/-- What the handler did with the request. -/
inductive StartOutcome where
  | respondedSkip (r : AnalysisResult)
  | respondedIgnored (r : AnalysisResult)
  | respondedCached (r : AnalysisResult)
  | started (p : Pending)
deriving DecidableEq, Repr

/-- Mark the tracker at heap key `tid` cancelled and clear its timer
(the `previousAnalysis.cancelled = true; clearTimeout(...)` idiom). -/
def cancelTracker (heap : List (Nat × Tracker)) (tid : Nat) :
    List (Nat × Tracker) :=
  match mget heap tid with
  | none => heap
  | some t => mset heap tid { t with cancelled := true, timeoutArmed := false }

/-- The `analyzeContent` message handler. -/
def onAnalyzeContentMessage (getHostname : String → Option String)
    (ignoreRules : List IgnoreRule) (reqId tabId : Nat) (url content : String)
    (skipped : Bool) (now : Nat) (s : BgState) : BgState × StartOutcome :=
  if skipped then
    let r := skipResult s.activeMode
    ({ s with
        storage := mset s.storage tabId ⟨r, some url, now⟩
        badges := s.badges ++ [⟨tabId, false, some r⟩]
        responses := s.responses ++ [(reqId, r)] },
      StartOutcome.respondedSkip r)
  else if shouldIgnoreUrl getHostname ignoreRules url then
    let r := ignoreResult s.activeMode content.length
    ({ s with
        storage := mset s.storage tabId ⟨r, some url, now⟩
        badges := s.badges ++ [⟨tabId, false, none⟩]
        responses := s.responses ++ [(reqId, r)] },
      StartOutcome.respondedIgnored r)
  else
    let cacheKey := getCacheKey url content tabId s.activeMode
    match mget s.cache cacheKey with
    | some cached =>
        ({ s with
            storage := mset s.storage tabId ⟨cached, some url, now⟩
            responses := s.responses ++ [(reqId, cached)]
            badges := s.badges ++ [⟨tabId, cached.isMalicious, some cached⟩] },
          StartOutcome.respondedCached cached)
    | none =>
        -- cancel any existing analysis for this tab (lines 266-271)
        let heap1 :=
          match mget s.registry tabId with
          | some oldTid => cancelTracker s.heap oldTid
          | none => s.heap
        -- register the fresh tracker with its watchdog armed (lines 279-301)
        let tid := s.nextTrackerId
        let s' := { s with
            heap := mset heap1 tid ⟨false, true, now⟩
            registry := mset s.registry tabId tid
            nextTrackerId := tid + 1 }
        (s', StartOutcome.started ⟨reqId, tabId, tid, url, content, cacheKey⟩)

/-! ### Settlement and watchdog continuations -/

/-- The 60-second watchdog callback (background.js lines 287-301). -/
def onAnalysisTimeout (p : Pending) (s : BgState) : BgState :=
  match mget s.heap p.tid with
  | none => s
  | some t =>
      if t.cancelled then s
      else
        { s with
            heap := mset s.heap p.tid { t with timeoutArmed := false }
            registry := mdel s.registry p.tabId
            responses := s.responses ++
              [(p.reqId, timeoutResult s.activeMode p.content.length)] }

/-- The `.then` handler of the fresh analysis (background.js lines
303-346): discard if cancelled; otherwise clear the timer, drop the
tracker, then commit only if the tab still exists on the same URL. -/
def onAnalysisResolved (now : Nat) (p : Pending) (r : AnalysisResult)
    (s : BgState) : BgState :=
  match mget s.heap p.tid with
  | none => s
  | some t =>
      if t.cancelled then s
      else
        let s1 := { s with
            heap := mset s.heap p.tid { t with timeoutArmed := false }
            registry := mdel s.registry p.tabId }
        match mget s.tabs p.tabId with
        | none => s1
        | some currentUrl =>
            if currentUrl = p.url then
              { s1 with
                  cache := mset s1.cache p.cacheKey r
                  badges := s1.badges ++ [⟨p.tabId, r.isMalicious, some r⟩]
                  storage := mset s1.storage p.tabId ⟨r, some currentUrl, now⟩
                  responses := s1.responses ++ [(p.reqId, r)] }
            else s1

/-- The `.catch` handler (background.js lines 347-373). -/
def onAnalysisRejected (p : Pending) (msg : String) (s : BgState) : BgState :=
  match mget s.heap p.tid with
  | none => s
  | some t =>
      if t.cancelled then s
      else
        { s with
            heap := mset s.heap p.tid { t with timeoutArmed := false }
            registry := mdel s.registry p.tabId
            responses := s.responses ++
              [(p.reqId, rejectionResult msg s.activeMode p.content.length)] }

/-! ### Tab lifecycle listeners and mode switching -/

/-- URLs the `onUpdated` listener treats as system/blank (lines 645-650). -/
def isSystemUrl (url : String) : Bool :=
  url = "" || strStartsWith url "chrome://" ||
    strStartsWith url "chrome-extension://" || strStartsWith url "about:" ||
    strStartsWith url "edge://"

/-- The `chrome.tabs.onUpdated` listener for a `loading` event
(background.js lines 641-699). -/
def onTabUpdatedLoading (tabId : Nat) (newUrl : String) (now : Nat)
    (s : BgState) : BgState :=
  let s0 := { s with tabs := mset s.tabs tabId newUrl }
  if isSystemUrl newUrl then
    { s0 with storage := mset s0.storage tabId ⟨systemSkippedResult, none, now⟩ }
  else
    let s1 :=
      match mget s0.registry tabId with
      | some tid =>
          { s0 with
              heap := cancelTracker s0.heap tid
              registry := mdel s0.registry tabId }
      | none => s0
    { s1 with storage := mdel s1.storage tabId }

/-- The `chrome.tabs.onRemoved` listener (background.js lines 609-638). -/
def onTabRemoved (tabId : Nat) (s : BgState) : BgState :=
  let s1 :=
    match mget s.registry tabId with
    | some tid =>
        { s with
            heap := cancelTracker s.heap tid
            registry := mdel s.registry tabId }
    | none => s
  { s1 with
      storage := mdel s1.storage tabId
      cache := s1.cache.filter
        (fun p => !(strStartsWith p.1 ("tab" ++ toString tabId ++ ":")))
      tabs := mdel s1.tabs tabId }

/-- `switchMode(newMode)` (background.js lines 72-84) followed by
`initializeAI`: sessions are discarded, the cache is cleared, the mode is
replaced, and re-initialization yields a new availability flag and status
(supplied by the environment, since the backends are external). -/
def switchMode (newMode : String) (newAvailable : Bool) (newStatus : String)
    (s : BgState) : BgState :=
  { s with
      cache := []
      activeMode := newMode
      isAiAvailable := newAvailable
      aiAvailabilityStatus := newStatus }

/-- Registry keys are pairwise distinct: at most one tracker per tab. -/
def regKeysNodup (s : BgState) : Prop := (mkeys s.registry).Nodup

instance (s : BgState) : Decidable (regKeysNodup s) := by
  unfold regKeysNodup
  infer_instance

/-! ### Concrete scenario states used by the witnesses and counterexamples -/

/-- A URL parser that always fails (models the `new URL` constructor
throwing on every input). -/
def wNoHost : String → Option String := fun _ => none

/-- Idle background state: cloud mode ready, nothing tracked, one tab. -/
def wState : BgState :=
  { activeMode := "cloud"
    isAiAvailable := true
    aiAvailabilityStatus := "readily"
    cache := []
    registry := []
    heap := []
    nextTrackerId := 0
    storage := []
    responses := []
    badges := []
    tabs := [(1, "http://a.test")] }

/-- State after request 0 started a fresh analysis for tab 1. -/
def wRunState : BgState :=
  (onAnalyzeContentMessage wNoHost [] 0 1 "http://a.test" "X" false 5 wState).1

/-- The pending continuation data of that fresh analysis. -/
def wPending : Pending :=
  ⟨0, 1, 0, "http://a.test", "X", getCacheKey "http://a.test" "X" 1 "cloud"⟩

/-- A successful backend verdict. -/
def wOkResult : AnalysisResult :=
  { isMalicious := false
    analysis := "ok"
    judgment := "SAFE"
    method := "cloud"
    mode := "cloud"
    contentLength := 1 }

/-- State after tab 1 navigated to a new page while the analysis was in
flight: the tracker is cancelled and unregistered. -/
def wNavState : BgState := onTabUpdatedLoading 1 "http://b.test" 6 wRunState

/-- State after the watchdog fired on the still-running analysis. -/
def wTimeoutState : BgState := onAnalysisTimeout wPending wRunState

/-- State after the backend call settles late, after the watchdog already
answered request 0. -/
def wLateState : BgState := onAnalysisResolved 70 wPending wOkResult wTimeoutState

/-- State after the cancelled analysis of `wNavState` settles. -/
def wNavSettledState : BgState := onAnalysisResolved 70 wPending wOkResult wNavState

/-! ### Lemmas about the association-list map operations -/

theorem mset_cons_eq (rest : List (κ × β)) (k : κ) (v v' : β) :
    mset ((k, v') :: rest) k v = (k, v) :: rest := by
  simp [mset]

theorem mset_cons_ne (rest : List (κ × β)) (k₀ k : κ) (v₀ v : β)
    (h : k₀ ≠ k) : mset ((k₀, v₀) :: rest) k v = (k₀, v₀) :: mset rest k v := by
  simp [mset, h]

theorem mget_cons_eq (rest : List (κ × β)) (k : κ) (v : β) :
    mget ((k, v) :: rest) k = some v := by
  simp [mget]

theorem mget_cons_ne (rest : List (κ × β)) (k₀ k : κ) (v₀ : β)
    (h : k₀ ≠ k) : mget ((k₀, v₀) :: rest) k = mget rest k := by
  simp [mget, h]

theorem mget_mset_self (m : List (κ × β)) (k : κ) (v : β) :
    mget (mset m k v) k = some v := by
  induction m with
  | nil => simp [mget, mset]
  | cons p rest ih =>
      obtain ⟨k', v'⟩ := p
      by_cases h : k' = k
      · subst h
        rw [mset_cons_eq, mget_cons_eq]
      · rw [mset_cons_ne rest k' k v' v h, mget_cons_ne _ _ _ _ h, ih]

theorem mget_mset_ne (m : List (κ × β)) (k k' : κ) (v : β) (h : k' ≠ k) :
    mget (mset m k v) k' = mget m k' := by
  induction m with
  | nil =>
      have hk : ¬ k = k' := fun he => h he.symm
      simp [mget, mset, hk]
  | cons p rest ih =>
      obtain ⟨k₀, v₀⟩ := p
      by_cases h0 : k₀ = k
      · subst h0
        have hk : k₀ ≠ k' := fun he => h he.symm
        rw [mset_cons_eq, mget_cons_ne _ _ _ _ hk, mget_cons_ne _ _ _ _ hk]
      · by_cases h1 : k₀ = k'
        · subst h1
          rw [mset_cons_ne rest k₀ k v₀ v h0, mget_cons_eq, mget_cons_eq]
        · rw [mset_cons_ne rest k₀ k v₀ v h0, mget_cons_ne _ _ _ _ h1,
            mget_cons_ne _ _ _ _ h1, ih]

theorem mget_mdel_self (m : List (κ × β)) (k : κ) :
    mget (mdel m k) k = none := by
  induction m with
  | nil => simp [mget, mdel]
  | cons p rest ih =>
      obtain ⟨k₀, v₀⟩ := p
      by_cases h : k₀ = k
      · simpa [mdel, List.filter_cons, h] using ih
      · simpa [mdel, List.filter_cons, mget, h] using ih

theorem mget_mdel_ne (m : List (κ × β)) (k k' : κ) (h : k' ≠ k) :
    mget (mdel m k) k' = mget m k' := by
  induction m with
  | nil => simp [mget, mdel]
  | cons p rest ih =>
      obtain ⟨k₀, v₀⟩ := p
      by_cases h0 : k₀ = k
      · subst h0
        have hk : k₀ ≠ k' := fun he => h he.symm
        simpa [mdel, List.filter_cons, mget, hk] using ih
      · by_cases h1 : k₀ = k'
        · subst h1
          simp [mdel, List.filter_cons, mget, h0]
        · simpa [mdel, List.filter_cons, mget, h0, h1] using ih

theorem mem_mkeys_mset (m : List (κ × β)) (k a : κ) (v : β)
    (h : a ∈ mkeys (mset m k v)) : a ∈ mkeys m ∨ a = k := by
  induction m with
  | nil =>
      simp [mset, mkeys] at h
      exact Or.inr h
  | cons p rest ih =>
      obtain ⟨k₀, v₀⟩ := p
      by_cases h0 : k₀ = k
      · subst h0
        rw [mset_cons_eq] at h
        simp only [mkeys, List.map_cons, List.mem_cons] at h ⊢
        tauto
      · rw [mset_cons_ne rest k₀ k v₀ v h0] at h
        simp only [mkeys, List.map_cons, List.mem_cons] at h ⊢
        rcases h with h1 | h1
        · tauto
        · rcases ih h1 with h2 | h2 <;> tauto

theorem mkeys_mset_nodup (m : List (κ × β)) (k : κ) (v : β)
    (h : (mkeys m).Nodup) : (mkeys (mset m k v)).Nodup := by
  induction m with
  | nil => simp [mset, mkeys]
  | cons p rest ih =>
      obtain ⟨k₀, v₀⟩ := p
      simp only [mkeys, List.map_cons, List.nodup_cons] at h
      obtain ⟨hnot, hrest⟩ := h
      by_cases h0 : k₀ = k
      · subst h0
        rw [mset_cons_eq]
        simp only [mkeys, List.map_cons, List.nodup_cons]
        exact ⟨hnot, hrest⟩
      · have hrest' := ih hrest
        rw [mset_cons_ne rest k₀ k v₀ v h0]
        simp only [mkeys, List.map_cons, List.nodup_cons]
        refine ⟨?_, hrest'⟩
        intro hmem
        rcases mem_mkeys_mset rest k k₀ v hmem with h1 | h1
        · exact hnot h1
        · exact h0 h1

theorem mkeys_mdel_nodup (m : List (κ × β)) (k : κ)
    (h : (mkeys m).Nodup) : (mkeys (mdel m k)).Nodup := by
  have hsub : List.Sublist (mdel m k) m := List.filter_sublist m
  exact List.Nodup.sublist (hsub.map Prod.fst) h

/-! ### A cancellation lemma for string concatenation -/

theorem strAppendCancelLeft (a b c : String) (h : a ++ b = a ++ c) :
    b = c := by
  have hd := congrArg String.data h
  simp only [String.data_append] at hd
  have h2 := List.append_cancel_left hd
  cases b with
  | mk db =>
      cases c with
      | mk dc =>
          simp only at h2
          exact congrArg String.mk h2

/-! ### Claims -/

/-- Claim C5: every cache key embeds the active mode, so two requests
identical except for mode never share a cache entry; and switchMode
clears the entire result cache, so repeating an identical request
immediately after a mode switch is a cache miss (the handler starts a
fresh analysis rather than answering from the cache). -/
theorem c5_cache_mode_isolation :
    (∀ url content tabId m₁ m₂,
        getCacheKey url content tabId m₁ = getCacheKey url content tabId m₂ →
        m₁ = m₂) ∧
    (∀ newMode newAvailable newStatus s key,
        mget (switchMode newMode newAvailable newStatus s).cache key = none) ∧
    (∀ getHostname ignoreRules reqId tabId url content now s newMode
        newAvailable newStatus,
        shouldIgnoreUrl getHostname ignoreRules url = false →
        (onAnalyzeContentMessage getHostname ignoreRules reqId tabId url
            content false now
            (switchMode newMode newAvailable newStatus s)).2 =
          StartOutcome.started
            ⟨reqId, tabId, s.nextTrackerId, url, content,
              getCacheKey url content tabId newMode⟩) := by
  refine ⟨?_, ?_, ?_⟩
  · intro url content tabId m₁ m₂ h
    simp only [getCacheKey] at h
    exact strAppendCancelLeft _ _ _ h
  · intro newMode newAvailable newStatus s key
    rfl
  · intro getHostname ignoreRules reqId tabId url content now s newMode
      newAvailable newStatus hig
    simp [onAnalyzeContentMessage, switchMode, hig, mget]

/-- Claim C5, witness: after switching to local mode the cache is empty
and the repeated request starts a fresh analysis under the local-mode
key. -/
theorem c5_cache_mode_isolation_witness :
    shouldIgnoreUrl wNoHost [] "http://a.test" = false ∧
    mget (switchMode "local" true "readily" wState).cache
      (getCacheKey "http://a.test" "X" 1 "cloud") = none ∧
    (onAnalyzeContentMessage wNoHost [] 2 1 "http://a.test" "X" false 9
        (switchMode "local" true "readily" wState)).2 =
      StartOutcome.started
        ⟨2, 1, 0, "http://a.test", "X", getCacheKey "http://a.test" "X" 1 "local"⟩ :=
  ⟨by decide,
   c5_cache_mode_isolation.2.1 "local" true "readily" wState _,
   c5_cache_mode_isolation.2.2 wNoHost [] 2 1 "http://a.test" "X" 9 wState
     "local" true "readily" (by decide)⟩

/-- Claim C7: if the AI is unavailable and the status is not
`configure-required`, `analyzeContent` fails fast with an `ERROR`
judgment and invokes no backend; in cloud mode with status
`configure-required` it returns `CONFIGURATION_ERROR` and invokes no
backend; otherwise it invokes exactly the backend selected by the mode;
it never invokes both backends. -/
theorem c7_fail_fast_dispatch (isAiAvailable : Bool)
    (aiAvailabilityStatus activeMode content : String)
    (localOutcome cloudOutcome : Except String AnalysisResult) :
    (isAiAvailable = false → aiAvailabilityStatus ≠ "configure-required" →
      (analyzeContent isAiAvailable aiAvailabilityStatus activeMode content
          localOutcome cloudOutcome).1.judgment = "ERROR" ∧
      (analyzeContent isAiAvailable aiAvailabilityStatus activeMode content
          localOutcome cloudOutcome).2 = (false, false)) ∧
    (activeMode = "cloud" → aiAvailabilityStatus = "configure-required" →
      (analyzeContent isAiAvailable aiAvailabilityStatus activeMode content
          localOutcome cloudOutcome).1.judgment = "CONFIGURATION_ERROR" ∧
      (analyzeContent isAiAvailable aiAvailabilityStatus activeMode content
          localOutcome cloudOutcome).2 = (false, false)) ∧
    ((isAiAvailable = true ∨ aiAvailabilityStatus = "configure-required") →
      ¬(activeMode = "cloud" ∧ aiAvailabilityStatus = "configure-required") →
      (analyzeContent isAiAvailable aiAvailabilityStatus activeMode content
          localOutcome cloudOutcome).2 =
        if activeMode = "cloud" then (false, true) else (true, false)) ∧
    ¬((analyzeContent isAiAvailable aiAvailabilityStatus activeMode content
          localOutcome cloudOutcome).2.1 = true ∧
      (analyzeContent isAiAvailable aiAvailabilityStatus activeMode content
          localOutcome cloudOutcome).2.2 = true) := by
  refine ⟨?_, ?_, ?_, ?_⟩
  · intro hav hst
    simp [analyzeContent, hav, hst, unavailableResult]
  · intro hm hst
    have hnot : ¬(isAiAvailable = false ∧ aiAvailabilityStatus ≠ "configure-required") := by
      intro hc
      exact hc.2 hst
    simp [analyzeContent, hnot, hm, hst, configRequiredResult]
  · intro hav hcfg
    have hnot : ¬(isAiAvailable = false ∧ aiAvailabilityStatus ≠ "configure-required") := by
      rcases hav with hav | hav
      · intro hc
        rw [hav] at hc
        exact absurd hc.1 (by simp)
      · intro hc
        exact hc.2 hav
    by_cases hm : activeMode = "cloud"
    · have hst : aiAvailabilityStatus ≠ "configure-required" := by
        intro hc
        exact hcfg ⟨hm, hc⟩
      have havT : isAiAvailable = true := by
        rcases hav with hav | hav
        · exact hav
        · exact absurd hav hst
      cases cloudOutcome with
      | ok r => simp [analyzeContent, havT, hm, hst, hcfg]
      | error msg => simp [analyzeContent, havT, hm, hst, hcfg]
    · cases localOutcome with
      | ok r => simp [analyzeContent, hnot, hm, hcfg]
      | error msg => simp [analyzeContent, hnot, hm, hcfg]
  · unfold analyzeContent
    split_ifs with h1 h2 h3
    · simp
    · simp
    · cases cloudOutcome <;> simp
    · cases localOutcome <;> simp

/-- Claim C7, witness: unavailable local mode fails fast with `ERROR`
and no backend call. -/
theorem c7_fail_fast_dispatch_witness :
    (analyzeContent false "error" "local" "X"
        (Except.ok wOkResult) (Except.ok wOkResult)).1.judgment = "ERROR" ∧
    (analyzeContent false "error" "local" "X"
        (Except.ok wOkResult) (Except.ok wOkResult)).2 = (false, false) :=
  (c7_fail_fast_dispatch false "error" "local" "X"
      (Except.ok wOkResult) (Except.ok wOkResult)).1 rfl (by decide)

/-- Claim C8: when hostname parsing fails while the rule loop is
evaluating a domain-type ignore rule (the loop aborts with the thrown
exception), `shouldIgnoreUrl` catches it and returns `false`: the page
is treated as not ignored. -/
theorem c8_malformed_url_fail_open (getHostname : String → Option String)
    (ignoreRules : List IgnoreRule) (url : String)
    (hpage : isWardInternalPage url = false)
    (herr : checkRules getHostname url ignoreRules = Except.error ()) :
    shouldIgnoreUrl getHostname ignoreRules url = false := by
  simp [shouldIgnoreUrl, hpage, herr]

/-- Claim C8, witness: a URL whose parse always fails, against one
domain rule. -/
theorem c8_malformed_url_fail_open_witness :
    isWardInternalPage "http://%%bad" = false ∧
    checkRules wNoHost "http://%%bad" [⟨"domain", "example.com"⟩] =
      Except.error () ∧
    shouldIgnoreUrl wNoHost [⟨"domain", "example.com"⟩] "http://%%bad" = false :=
  ⟨by decide, rfl,
   c8_malformed_url_fail_open wNoHost [⟨"domain", "example.com"⟩]
     "http://%%bad" (by decide) rfl⟩

/-- Claim C9: a cache hit is not side-effect-free: the handler rewrites
the per-tab stored detection entry with the cached result and a fresh
timestamp, sends the cached result, and updates the badge, while the
cache, the tracker registry, the tracker heap and the allocation counter
are unchanged. -/
theorem c9_cache_hit_side_effects (getHostname : String → Option String)
    (ignoreRules : List IgnoreRule) (reqId tabId : Nat) (url content : String)
    (now : Nat) (s : BgState) (cached : AnalysisResult)
    (hig : shouldIgnoreUrl getHostname ignoreRules url = false)
    (hhit : mget s.cache (getCacheKey url content tabId s.activeMode) =
      some cached) :
    (onAnalyzeContentMessage getHostname ignoreRules reqId tabId url content
        false now s).2 = StartOutcome.respondedCached cached ∧
    (onAnalyzeContentMessage getHostname ignoreRules reqId tabId url content
        false now s).1.cache = s.cache ∧
    (onAnalyzeContentMessage getHostname ignoreRules reqId tabId url content
        false now s).1.registry = s.registry ∧
    (onAnalyzeContentMessage getHostname ignoreRules reqId tabId url content
        false now s).1.heap = s.heap ∧
    (onAnalyzeContentMessage getHostname ignoreRules reqId tabId url content
        false now s).1.nextTrackerId = s.nextTrackerId ∧
    mget (onAnalyzeContentMessage getHostname ignoreRules reqId tabId url
        content false now s).1.storage tabId = some ⟨cached, some url, now⟩ ∧
    (onAnalyzeContentMessage getHostname ignoreRules reqId tabId url content
        false now s).1.responses = s.responses ++ [(reqId, cached)] ∧
    (onAnalyzeContentMessage getHostname ignoreRules reqId tabId url content
        false now s).1.badges =
      s.badges ++ [⟨tabId, cached.isMalicious, some cached⟩] := by
  simp [onAnalyzeContentMessage, hig, hhit, mget_mset_self]

/-- Claim C1: a settlement whose tracker is cancelled, or for which the
tab's current URL differs from the request's URL (or the tab is gone),
is discarded entirely — no cache write, no stored detection, no
response, no badge update; the result is committed exactly when the
tracker is uncancelled and the tab's URL equals the request's URL. -/
theorem c1_navigation_race_discard (now : Nat) (p : Pending)
    (r : AnalysisResult) (s : BgState) (t : Tracker)
    (hheap : mget s.heap p.tid = some t) :
    (¬(t.cancelled = false ∧ mget s.tabs p.tabId = some p.url) →
      (onAnalysisResolved now p r s).cache = s.cache ∧
      (onAnalysisResolved now p r s).storage = s.storage ∧
      (onAnalysisResolved now p r s).responses = s.responses ∧
      (onAnalysisResolved now p r s).badges = s.badges) ∧
    ((t.cancelled = false ∧ mget s.tabs p.tabId = some p.url) →
      mget (onAnalysisResolved now p r s).cache p.cacheKey = some r ∧
      (onAnalysisResolved now p r s).responses =
        s.responses ++ [(p.reqId, r)] ∧
      mget (onAnalysisResolved now p r s).storage p.tabId =
        some ⟨r, some p.url, now⟩) := by
  by_cases hc : t.cancelled
  · constructor
    · intro _
      simp [onAnalysisResolved, hheap, hc]
    · intro hcommit
      exact absurd hcommit.1 (by simp [hc])
  · have hcf : t.cancelled = false := by simpa using hc
    rcases htab : mget s.tabs p.tabId with _ | u
    · constructor
      · intro _
        simp [onAnalysisResolved, hheap, hcf, htab]
      · intro hcommit
        exact absurd hcommit.2 (by simp)
    · by_cases hu : u = p.url
      · subst hu
        constructor
        · intro hnc
          exact absurd ⟨hcf, rfl⟩ hnc
        · intro _
          refine ⟨?_, ?_, ?_⟩
          · simp [onAnalysisResolved, hheap, hcf, htab, mget_mset_self]
          · simp [onAnalysisResolved, hheap, hcf, htab]
          · simp [onAnalysisResolved, hheap, hcf, htab, mget_mset_self]
      · constructor
        · intro _
          simp [onAnalysisResolved, hheap, hcf, htab, hu]
        · intro hcommit
          exact absurd (Option.some.inj hcommit.2) hu

/-- Claim C1, witness: the uncancelled settlement on an unchanged tab
commits the result to the cache. -/
theorem c1_navigation_race_discard_witness :
    mget wRunState.heap wPending.tid = some ⟨false, true, 5⟩ ∧
    (⟨false, true, 5⟩ : Tracker).cancelled = false ∧
    mget wRunState.tabs wPending.tabId = some wPending.url ∧
    mget (onAnalysisResolved 70 wPending wOkResult wRunState).cache
      wPending.cacheKey = some wOkResult :=
  ⟨by decide, rfl, by decide,
   ((c1_navigation_race_discard 70 wPending wOkResult wRunState
       ⟨false, true, 5⟩ (by decide)).2 ⟨rfl, by decide⟩).1⟩

/-- Claim C3, counterexample: when the watchdog fires on the
still-running analysis of request 0, the delivered synthetic result's
judgment field is the caution text, not the taxonomy value TIMEOUT. -/
theorem c3_timeout_judgment_counterexample :
    wTimeoutState.responses = [(0, timeoutResult "cloud" 1)] ∧
    (timeoutResult "cloud" 1).judgment ≠ "TIMEOUT" := by
  constructor
  · decide
  · decide

/-- Claim C3, amended: when the watchdog fires for a still-uncancelled
analysis, exactly one synthetic result is delivered to the waiting
caller, with method field set to timeout and judgment field set to the
caution text, and the tracker for that tab is removed from the
registry. -/
theorem c3_watchdog_timeout_result (p : Pending) (s : BgState) (t : Tracker)
    (hheap : mget s.heap p.tid = some t) (hc : t.cancelled = false) :
    (onAnalysisTimeout p s).responses =
      s.responses ++ [(p.reqId, timeoutResult s.activeMode p.content.length)] ∧
    (timeoutResult s.activeMode p.content.length).method = "timeout" ∧
    (timeoutResult s.activeMode p.content.length).judgment =
      "Unable to scan. Proceed with caution." ∧
    mget (onAnalysisTimeout p s).registry p.tabId = none := by
  refine ⟨?_, rfl, rfl, ?_⟩
  · simp [onAnalysisTimeout, hheap, hc]
  · simp [onAnalysisTimeout, hheap, hc, mget_mdel_self]

/-- Claim C3, witness: the watchdog firing on the running analysis of
request 0. -/
theorem c3_watchdog_timeout_result_witness :
    mget wRunState.heap wPending.tid = some ⟨false, true, 5⟩ ∧
    wTimeoutState.responses = [(0, timeoutResult "cloud" 1)] ∧
    mget wTimeoutState.registry wPending.tabId = none :=
  ⟨by decide,
   by
     have h := (c3_watchdog_timeout_result wPending wRunState
       ⟨false, true, 5⟩ (by decide) rfl).1
     simpa using h,
   (c3_watchdog_timeout_result wPending wRunState
     ⟨false, true, 5⟩ (by decide) rfl).2.2.2⟩

/-- Claim C10: a cancelled tracker never produces a timeout result (the
watchdog handler leaves the state entirely unchanged when the cancelled
flag is set), and every cancellation path — a newer request for the same
tab, tab navigation, and tab close — both sets the cancelled flag and
clears the timer of the existing tracker. -/
theorem c10_cancelled_tracker_is_silent :
    (∀ p s t, mget s.heap p.tid = some t → t.cancelled = true →
      onAnalysisTimeout p s = s) ∧
    (∀ tabId newUrl now s tid t, isSystemUrl newUrl = false →
      mget s.registry tabId = some tid → mget s.heap tid = some t →
      mget (onTabUpdatedLoading tabId newUrl now s).heap tid =
        some { t with cancelled := true, timeoutArmed := false }) ∧
    (∀ tabId s tid t, mget s.registry tabId = some tid →
      mget s.heap tid = some t →
      mget (onTabRemoved tabId s).heap tid =
        some { t with cancelled := true, timeoutArmed := false }) ∧
    (∀ getHostname ignoreRules reqId tabId url content now s oldTid oldT,
      shouldIgnoreUrl getHostname ignoreRules url = false →
      mget s.cache (getCacheKey url content tabId s.activeMode) = none →
      mget s.registry tabId = some oldTid →
      mget s.heap oldTid = some oldT →
      oldTid < s.nextTrackerId →
      mget (onAnalyzeContentMessage getHostname ignoreRules reqId tabId url
          content false now s).1.heap oldTid =
        some { oldT with cancelled := true, timeoutArmed := false }) := by
  refine ⟨?_, ?_, ?_, ?_⟩
  · intro p s t hheap hc
    simp [onAnalysisTimeout, hheap, hc]
  · intro tabId newUrl now s tid t hsys hreg hheap
    simp [onTabUpdatedLoading, hsys, hreg, cancelTracker, hheap,
      mget_mset_self]
  · intro tabId s tid t hreg hheap
    simp [onTabRemoved, hreg, cancelTracker, hheap, mget_mset_self]
  · intro getHostname ignoreRules reqId tabId url content now s oldTid oldT
      hig hmiss hreg hheap hfresh
    have hne : oldTid ≠ s.nextTrackerId := Nat.ne_of_lt hfresh
    simp only [onAnalyzeContentMessage, if_neg (by decide : ¬False), hig,
      Bool.false_eq_true, if_false, hmiss, hreg, cancelTracker, hheap]
    rw [mget_mset_ne _ _ _ _ hne, mget_mset_self]

/-- Claim C10, witness: navigation cancels the running tracker and the
watchdog then stays silent. -/
theorem c10_cancelled_tracker_is_silent_witness :
    isSystemUrl "http://b.test" = false ∧
    mget wRunState.registry 1 = some 0 ∧
    mget wRunState.heap 0 = some ⟨false, true, 5⟩ ∧
    mget wNavState.heap 0 = some ⟨true, false, 5⟩ ∧
    onAnalysisTimeout wPending wNavState = wNavState :=
  ⟨by decide, by decide, by decide,
   c10_cancelled_tracker_is_silent.2.1 1 "http://b.test" 6 wRunState 0
     ⟨false, true, 5⟩ (by decide) (by decide) (by decide),
   c10_cancelled_tracker_is_silent.1 wPending wNavState
     ⟨true, false, 5⟩ (by decide) rfl⟩

/-- Claim C4: the registry holds at most one tracker per tab.  Key
distinctness is preserved by every operation; registering a fresh
analysis first marks the existing tracker cancelled with its timer
cleared, then replaces the registry entry with the fresh tracker; and
every uncancelled settlement, the watchdog, navigation and tab close
leave no registry entry for the tab. -/
theorem c4_registry_at_most_one_per_tab :
    (∀ getHostname ignoreRules reqId tabId url content skipped now s,
      regKeysNodup s →
      regKeysNodup (onAnalyzeContentMessage getHostname ignoreRules reqId
        tabId url content skipped now s).1) ∧
    (∀ now p r s, regKeysNodup s →
      regKeysNodup (onAnalysisResolved now p r s)) ∧
    (∀ p msg s, regKeysNodup s → regKeysNodup (onAnalysisRejected p msg s)) ∧
    (∀ p s, regKeysNodup s → regKeysNodup (onAnalysisTimeout p s)) ∧
    (∀ tabId newUrl now s, regKeysNodup s →
      regKeysNodup (onTabUpdatedLoading tabId newUrl now s)) ∧
    (∀ tabId s, regKeysNodup s → regKeysNodup (onTabRemoved tabId s)) ∧
    (∀ newMode newAvailable newStatus s, regKeysNodup s →
      regKeysNodup (switchMode newMode newAvailable newStatus s)) ∧
    (∀ getHostname ignoreRules reqId tabId url content now s oldTid oldT,
      shouldIgnoreUrl getHostname ignoreRules url = false →
      mget s.cache (getCacheKey url content tabId s.activeMode) = none →
      mget s.registry tabId = some oldTid →
      mget s.heap oldTid = some oldT →
      oldTid < s.nextTrackerId →
      (mget (onAnalyzeContentMessage getHostname ignoreRules reqId tabId url
          content false now s).1.heap oldTid =
        some { oldT with cancelled := true, timeoutArmed := false } ∧
       mget (onAnalyzeContentMessage getHostname ignoreRules reqId tabId url
          content false now s).1.registry tabId = some s.nextTrackerId)) ∧
    (∀ now p r msg s t, mget s.heap p.tid = some t → t.cancelled = false →
      (mget (onAnalysisResolved now p r s).registry p.tabId = none ∧
       mget (onAnalysisRejected p msg s).registry p.tabId = none ∧
       mget (onAnalysisTimeout p s).registry p.tabId = none)) ∧
    (∀ tabId newUrl now s, isSystemUrl newUrl = false →
      mget (onTabUpdatedLoading tabId newUrl now s).registry tabId = none) ∧
    (∀ tabId s, mget (onTabRemoved tabId s).registry tabId = none) := by
  refine ⟨?_, ?_, ?_, ?_, ?_, ?_, ?_, ?_, ?_, ?_, ?_⟩
  · intro getHostname ignoreRules reqId tabId url content skipped now s h
    unfold regKeysNodup at h ⊢
    simp only [onAnalyzeContentMessage]
    split
    · exact h
    · split
      · exact h
      · split
        · exact h
        · exact mkeys_mset_nodup _ _ _ h
  · intro now p r s h
    unfold regKeysNodup at h ⊢
    simp only [onAnalysisResolved]
    split
    · exact h
    · split
      · exact h
      · split
        · exact mkeys_mdel_nodup _ _ h
        · split
          · exact mkeys_mdel_nodup _ _ h
          · exact mkeys_mdel_nodup _ _ h
  · intro p msg s h
    unfold regKeysNodup at h ⊢
    simp only [onAnalysisRejected]
    split
    · exact h
    · split
      · exact h
      · exact mkeys_mdel_nodup _ _ h
  · intro p s h
    unfold regKeysNodup at h ⊢
    simp only [onAnalysisTimeout]
    split
    · exact h
    · split
      · exact h
      · exact mkeys_mdel_nodup _ _ h
  · intro tabId newUrl now s h
    unfold regKeysNodup at h ⊢
    simp only [onTabUpdatedLoading]
    split
    · exact h
    · split
      · exact mkeys_mdel_nodup _ _ h
      · exact h
  · intro tabId s h
    unfold regKeysNodup at h ⊢
    simp only [onTabRemoved]
    split
    · exact mkeys_mdel_nodup _ _ h
    · exact h
  · intro newMode newAvailable newStatus s h
    exact h
  · intro getHostname ignoreRules reqId tabId url content now s oldTid oldT
      hig hmiss hreg hheap hfresh
    have hne : oldTid ≠ s.nextTrackerId := Nat.ne_of_lt hfresh
    constructor
    · simp only [onAnalyzeContentMessage, hig, Bool.false_eq_true, if_false,
        hmiss, hreg, cancelTracker, hheap]
      rw [mget_mset_ne _ _ _ _ hne, mget_mset_self]
    · simp only [onAnalyzeContentMessage, hig, Bool.false_eq_true, if_false,
        hmiss, hreg, cancelTracker, hheap]
      rw [mget_mset_self]
  · intro now p r msg s t hheap hc
    refine ⟨?_, ?_, ?_⟩
    · rcases htab : mget s.tabs p.tabId with _ | u
      · simp [onAnalysisResolved, hheap, hc, htab, mget_mdel_self]
      · by_cases hu : u = p.url <;>
          simp [onAnalysisResolved, hheap, hc, htab, hu, mget_mdel_self]
    · simp [onAnalysisRejected, hheap, hc, mget_mdel_self]
    · simp [onAnalysisTimeout, hheap, hc, mget_mdel_self]
  · intro tabId newUrl now s hsys
    rcases hreg : mget s.registry tabId with _ | tid
    · simp [onTabUpdatedLoading, hsys, hreg]
    · simp [onTabUpdatedLoading, hsys, hreg, mget_mdel_self]
  · intro tabId s
    rcases hreg : mget s.registry tabId with _ | tid
    · simp [onTabRemoved, hreg]
    · simp [onTabRemoved, hreg, mget_mdel_self]

/-- Claim C4, witness: the registry of the idle state and of the state
with one running analysis both have pairwise-distinct keys. -/
theorem c4_registry_at_most_one_per_tab_witness :
    regKeysNodup wState ∧ regKeysNodup wRunState :=
  ⟨by decide,
   c4_registry_at_most_one_per_tab.1 wNoHost [] 0 1 "http://a.test" "X"
     false 5 wState (by decide)⟩

/-- Claim C6, counterexample: request 0's analysis is cancelled by
navigation and its settlement delivers no result at all — the response
log of the final state is empty, refuting delivery of exactly one result
on the cancellation path. -/
theorem c6_always_resolves_counterexample :
    wNavSettledState.responses = [] ∧ wNavSettledState = wNavState := by
  constructor
  · decide
  · decide

/-- Claim C6, amended: the coordinator never throws and delivers exactly
one well-formed result on the skip, ignore, cache-hit, committed
success, backend-error and timeout paths, but on discard paths —
settlement of a cancelled analysis, or settlement after the tab closed
or navigated away — no result is delivered to the caller at all. -/
theorem c6_response_discipline :
    (∀ getHostname ignoreRules reqId tabId url content now s,
      (onAnalyzeContentMessage getHostname ignoreRules reqId tabId url
          content true now s).1.responses =
        s.responses ++ [(reqId, skipResult s.activeMode)]) ∧
    (∀ getHostname ignoreRules reqId tabId url content now s,
      shouldIgnoreUrl getHostname ignoreRules url = true →
      (onAnalyzeContentMessage getHostname ignoreRules reqId tabId url
          content false now s).1.responses =
        s.responses ++ [(reqId, ignoreResult s.activeMode content.length)]) ∧
    (∀ getHostname ignoreRules reqId tabId url content now s cached,
      shouldIgnoreUrl getHostname ignoreRules url = false →
      mget s.cache (getCacheKey url content tabId s.activeMode) = some cached →
      (onAnalyzeContentMessage getHostname ignoreRules reqId tabId url
          content false now s).1.responses = s.responses ++ [(reqId, cached)]) ∧
    (∀ getHostname ignoreRules reqId tabId url content now s,
      shouldIgnoreUrl getHostname ignoreRules url = false →
      mget s.cache (getCacheKey url content tabId s.activeMode) = none →
      (onAnalyzeContentMessage getHostname ignoreRules reqId tabId url
          content false now s).1.responses = s.responses) ∧
    (∀ now p r s t, mget s.heap p.tid = some t → t.cancelled = false →
      mget s.tabs p.tabId = some p.url →
      (onAnalysisResolved now p r s).responses =
        s.responses ++ [(p.reqId, r)]) ∧
    (∀ now p r s t, mget s.heap p.tid = some t →
      (t.cancelled = true ∨ mget s.tabs p.tabId ≠ some p.url) →
      (onAnalysisResolved now p r s).responses = s.responses) ∧
    (∀ p msg s t, mget s.heap p.tid = some t → t.cancelled = false →
      (onAnalysisRejected p msg s).responses = s.responses ++
        [(p.reqId, rejectionResult msg s.activeMode p.content.length)]) ∧
    (∀ p msg s t, mget s.heap p.tid = some t → t.cancelled = true →
      (onAnalysisRejected p msg s).responses = s.responses) ∧
    (∀ p s t, mget s.heap p.tid = some t → t.cancelled = false →
      (onAnalysisTimeout p s).responses = s.responses ++
        [(p.reqId, timeoutResult s.activeMode p.content.length)]) ∧
    (∀ p s t, mget s.heap p.tid = some t → t.cancelled = true →
      (onAnalysisTimeout p s).responses = s.responses) := by
  refine ⟨?_, ?_, ?_, ?_, ?_, ?_, ?_, ?_, ?_, ?_⟩
  · intro getHostname ignoreRules reqId tabId url content now s
    simp [onAnalyzeContentMessage]
  · intro getHostname ignoreRules reqId tabId url content now s hig
    simp [onAnalyzeContentMessage, hig]
  · intro getHostname ignoreRules reqId tabId url content now s cached hig hhit
    simp [onAnalyzeContentMessage, hig, hhit]
  · intro getHostname ignoreRules reqId tabId url content now s hig hmiss
    simp [onAnalyzeContentMessage, hig, hmiss]
  · intro now p r s t hheap hc htab
    simp [onAnalysisResolved, hheap, hc, htab]
  · intro now p r s t hheap hd
    by_cases hc : t.cancelled
    · simp [onAnalysisResolved, hheap, hc]
    · have hcf : t.cancelled = false := by simpa using hc
      rcases hd with hd | hd
      · exact absurd hd (by simpa using hc)
      · rcases htab : mget s.tabs p.tabId with _ | u
        · simp [onAnalysisResolved, hheap, hcf, htab]
        · have hu : ¬ u = p.url := by
            intro he
            rw [he] at htab
            exact hd htab
          simp [onAnalysisResolved, hheap, hcf, htab, hu]
  · intro p msg s t hheap hc
    simp [onAnalysisRejected, hheap, hc]
  · intro p msg s t hheap hc
    simp [onAnalysisRejected, hheap, hc]
  · intro p s t hheap hc
    simp [onAnalysisTimeout, hheap, hc]
  · intro p s t hheap hc
    simp [onAnalysisTimeout, hheap, hc]

/-- Claim C6, witness: the skip path answers request 3 with exactly one
SKIPPED result. -/
theorem c6_response_discipline_witness :
    (onAnalyzeContentMessage wNoHost [] 3 1 "http://a.test" "" true 9
        wState).1.responses = [(3, skipResult "cloud")] :=
  c6_response_discipline.1 wNoHost [] 3 1 "http://a.test" "" 9 wState

/-- Claim C2: the watchdog answers request 0 and removes the tracker,
but does not mark it cancelled; so when the backend call settles later
on the unchanged tab, the settlement handler emits a second response for
the same request and commits the stale result to the cache. -/
theorem c2_duplicate_after_timeout :
    wTimeoutState.responses = [(0, timeoutResult "cloud" 1)] ∧
    mget wTimeoutState.registry 1 = none ∧
    mget wTimeoutState.heap 0 = some ⟨false, false, 5⟩ ∧
    wLateState.responses = [(0, timeoutResult "cloud" 1), (0, wOkResult)] ∧
    mget wLateState.cache wPending.cacheKey = some wOkResult := by
  refine ⟨by decide, by decide, by decide, by decide, by decide⟩

set_option maxRecDepth 4096 in
/-- Claim C9, witness: repeating request 0 against the state in which
its result was committed hits the cache. -/
theorem c9_cache_hit_side_effects_witness :
    shouldIgnoreUrl wNoHost [] "http://a.test" = false ∧
    mget (onAnalysisResolved 70 wPending wOkResult wRunState).cache
      (getCacheKey "http://a.test" "X" 1 "cloud") = some wOkResult ∧
    (onAnalyzeContentMessage wNoHost [] 1 1 "http://a.test" "X" false 80
        (onAnalysisResolved 70 wPending wOkResult wRunState)).2 =
      StartOutcome.respondedCached wOkResult :=
  ⟨by decide, by decide,
   (c9_cache_hit_side_effects wNoHost [] 1 1 "http://a.test" "X" 80
      (onAnalysisResolved 70 wPending wOkResult wRunState) wOkResult
      (by decide) (by decide)).1⟩

end Ward
